import Mathlib

/-!
# ovpn-dco: device lifecycle core (`drivers/net/ovpn/main.c`)

A shallow embedding of the interface registry (`dev_list`), the lifecycle
notifier (`ovpn_netdev_notifier_call`), interface creation and teardown
(`ovpn_iface_create`, `ovpn_iface_destruct`), resource release
(`ovpn_struct_free`), device setup (`ovpn_setup`) and module load
(`ovpn_init`), followed by the properties proved about them.

Conventions: a device and its private `struct ovpn_struct` (`netdev_priv`)
share one identity, a natural number.  Kernel calls whose only effect lies
outside the driver are recorded in traces, in program order.
-/

namespace Ovpn

/-! ## Devices -/

/-- Transmit entry points a `net_device_ops` table may carry: the driver's own
`ovpn_net_xmit`, or the handler of some other driver. -/
inductive xmit_fn where
  | ovpn_net_xmit
  | foreign (tag : Nat)
  deriving DecidableEq, Repr

/-- The part of `struct net_device_ops` the driver inspects. -/
structure net_device_ops where
  ndo_start_xmit : xmit_fn
  deriving DecidableEq, Repr

/-- The part of `struct net_device` the lifecycle code reads: the identity of
the device (which is also the identity of its private `ovpn_struct`) and its
operations table. -/
structure net_device where
  ifindex : Nat
  netdev_ops : net_device_ops
  deriving DecidableEq, Repr

/-- The table `ovpn_netdev_ops` installed by `ovpn_setup`. -/
def ovpn_netdev_ops : net_device_ops := { ndo_start_xmit := xmit_fn.ovpn_net_xmit }

/-- Function `ovpn_dev_is_valid`: the device belongs to this driver when its transmit
handler is `ovpn_net_xmit`. -/
def ovpn_dev_is_valid (dev : net_device) : Bool :=
  dev.netdev_ops.ndo_start_xmit == xmit_fn.ovpn_net_xmit

/-! ## Driver state -/

/-- Everything the lifecycle code reads or writes.

* `dev_list`: the entries linked on the global `dev_list`, first entry first;
* `registered`: the `registered` flag of every `ovpn_struct`;
* `refcnt`: the reference count of every device (`dev_hold` / `dev_put`);
* `unregistering`: devices passed to `unregister_netdevice`, oldest first;
* `rtnl_held`: whether the RTNL mutex is held;
* `freed`: devices passed to `free_netdev`, oldest first;
* `mode`: the `mode` field of every `ovpn_struct`;
* `dev_net`: the namespace every device is bound to (`dev_net_set`);
* `name`: the name every device was allocated under. -/
structure State where
  dev_list : List Nat
  registered : Nat → Bool
  refcnt : Nat → Int
  unregistering : List Nat
  rtnl_held : Bool
  freed : List Nat
  mode : Nat → Nat
  dev_net : Nat → Nat
  name : Nat → String

/-- State at module load: empty `dev_list`, every flag clear. -/
def State.init : State :=
  { dev_list := []
    registered := fun _ => false
    refcnt := fun _ => 0
    unregistering := []
    rtnl_held := false
    freed := []
    mode := fun _ => 0
    dev_net := fun _ => 0
    name := fun _ => "" }

/-- Kernel `list_add(new, head)`: link `new` right after the list head.

`dev_list` is kept as the sequence of entries met when walking `next` from the
head.  The rendering is exact for an entry that is not linked, on a
well-formed list (`links_add_refines`).  Linking an entry that is already
linked does not unlink it first: the `next` field of its old predecessor still
leads to it, which the second occurrence in the sequence stands for
(`links_after_double_register` replays such a run on the `next`/`prev` fields
themselves). -/
def list_add (entry : Nat) (head : List Nat) : List Nat := entry :: head

/-- Kernel `list_del(entry)`: unlink `entry` from between its two neighbours.
One link is undone.  The rendering is exact for an entry that is linked, on a
well-formed list (`links_del_refines`).  For an entry that is not linked the
list stays as it is; on the fields themselves the first store of `links_del`
then faults, before anything is written, and the caller does not go on. -/
def list_del (entry : Nat) (head : List Nat) : List Nat := head.erase entry

/-- Function `ovpn_iface_destruct(ovpn, unregister_netdev)`:
`dev_put`, `list_del`, clear `registered`, and `unregister_netdevice` when
asked to.  (`ASSERT_RTNL` only warns and has no effect on the state.) -/
def ovpn_iface_destruct (s : State) (ovpn : Nat) (unregister_netdev : Bool) : State :=
  let s1 := { s with refcnt := Function.update s.refcnt ovpn (s.refcnt ovpn - 1) }
  let s2 := { s1 with dev_list := list_del ovpn s1.dev_list }
  let s3 := { s2 with registered := Function.update s2.registered ovpn false }
  if unregister_netdev then
    { s3 with unregistering := s3.unregistering ++ [ovpn] }
  else
    s3

/-! ## The list at the level of its `next` and `prev` fields -/

/-- Values a `next` or `prev` field of a `struct list_head` can hold: null
(zero-filled memory), the address of the list head `dev_list`, the address of
the `dev_list` member of an interface, or one of the two poison values
`list_del` leaves behind. -/
inductive list_ptr where
  | null
  | head
  | entry (ovpn : Nat)
  | LIST_POISON1
  | LIST_POISON2
  deriving DecidableEq, Repr

/-- The `next` and `prev` fields of the list head and of every entry. -/
structure list_links where
  next : list_ptr → list_ptr
  prev : list_ptr → list_ptr

/-- Initial fields, `LIST_HEAD(dev_list)`: the head points to itself, the
entries are zero-filled. -/
def list_links.init : list_links :=
  { next := fun p => if p = list_ptr.head then list_ptr.head else list_ptr.null
    prev := fun p => if p = list_ptr.head then list_ptr.head else list_ptr.null }

/-- The store `p->next = v`; a store through null or poison faults. -/
def store_next (l : list_links) (p v : list_ptr) : Option list_links :=
  match p with
  | list_ptr.head => some { l with next := Function.update l.next p v }
  | list_ptr.entry _ => some { l with next := Function.update l.next p v }
  | _ => none

/-- The store `p->prev = v`; a store through null or poison faults. -/
def store_prev (l : list_links) (p v : list_ptr) : Option list_links :=
  match p with
  | list_ptr.head => some { l with prev := Function.update l.prev p v }
  | list_ptr.entry _ => some { l with prev := Function.update l.prev p v }
  | _ => none

/-- Kernel `list_add(new, &dev_list)` on the fields: with `prev` the head and
`next` the head's successor, `next->prev = new; new->next = next;
new->prev = prev; prev->next = new`. -/
def links_add (l : list_links) (new : list_ptr) : Option list_links :=
  (store_prev l (l.next list_ptr.head) new).bind fun l1 =>
  (store_next l1 new (l.next list_ptr.head)).bind fun l2 =>
  (store_prev l2 new list_ptr.head).bind fun l3 =>
  store_next l3 list_ptr.head new

/-- Kernel `list_del(entry)` on the fields: with `prev` and `next` read from
the entry, `next->prev = prev; prev->next = next`, then the entry is poisoned. -/
def links_del (l : list_links) (e : list_ptr) : Option list_links :=
  (store_prev l (l.next e) (l.prev e)).bind fun l1 =>
  (store_next l1 (l.prev e) (l.next e)).bind fun l2 =>
  (store_next l2 e list_ptr.LIST_POISON1).bind fun l3 =>
  store_prev l3 e list_ptr.LIST_POISON2

/-- The entries met when following `next` from `p`, as `list_for_each_entry`
does, for at most `fuel` entries; the walk ends at the head (or at any value
that is not an entry). -/
def links_walk (l : list_links) : Nat → list_ptr → List Nat
  | 0, _ => []
  | fuel + 1, list_ptr.entry i => i :: links_walk l fuel (l.next (list_ptr.entry i))
  | _ + 1, _ => []

/-- The fields link the entries `xs`, in this order, between `p` and the head. -/
def links_chain (l : list_links) : list_ptr → List Nat → Prop
  | p, [] => l.next p = list_ptr.head ∧ l.prev list_ptr.head = p
  | p, x :: xs =>
    l.next p = list_ptr.entry x ∧ l.prev (list_ptr.entry x) = p
      ∧ links_chain l (list_ptr.entry x) xs

/-- The fields form the well-formed list whose entries are `xs`, first entry first. -/
def links_hold (l : list_links) (xs : List Nat) : Prop :=
  xs.Nodup ∧ links_chain l list_ptr.head xs

/-- The fields after the list operations of `double_register_steps`: link
entry 0, link entry 1, link entry 0 again, unlink entry 0. -/
def links_after_double_register : Option list_links :=
  (links_add list_links.init (list_ptr.entry 0)).bind fun l1 =>
  (links_add l1 (list_ptr.entry 1)).bind fun l2 =>
  (links_add l2 (list_ptr.entry 0)).bind fun l3 =>
  links_del l3 (list_ptr.entry 0)

/-! ## Lifecycle notifier -/

/-- The `state` argument of the notifier, split the way the `switch` of
`ovpn_netdev_notifier_call` splits it: one constructor per `case` label, and
`other` for every value that reaches `default`. -/
inductive netdev_event where
  | NETDEV_POST_INIT
  | NETDEV_REGISTER
  | NETDEV_UNREGISTER
  | NETDEV_GOING_DOWN
  | NETDEV_DOWN
  | NETDEV_UP
  | NETDEV_PRE_UP
  | other (code : Nat)
  deriving DecidableEq, Repr

/-- Notifier result "not interested" (`NOTIFY_DONE`, 0x0000). -/
def NOTIFY_DONE : Nat := 0x0000

/-- Notifier result "handled" (`NOTIFY_OK`, 0x0001). -/
def NOTIFY_OK : Nat := 0x0001

/-- Bit that makes a notifier result stop the chain, i.e. veto
(`NOTIFY_STOP_MASK`, 0x8000). -/
def NOTIFY_STOP_MASK : Nat := 0x8000

/-- Function `ovpn_netdev_notifier_call(nb, state, ptr)`, with `dev` the device that
`netdev_notifier_info_to_dev(ptr)` yields.  Returns the notifier result and
the new state. -/
def ovpn_netdev_notifier_call (s : State) (state : netdev_event) (dev : net_device) :
    Nat × State :=
  if !ovpn_dev_is_valid dev then
    (NOTIFY_DONE, s)
  else
    let ovpn := dev.ifindex
    match state with
    | .NETDEV_POST_INIT => (NOTIFY_OK, s)
    | .NETDEV_REGISTER =>
      let s1 := { s with dev_list := list_add ovpn s.dev_list }
      (NOTIFY_OK, { s1 with registered := Function.update s1.registered ovpn true })
    | .NETDEV_UNREGISTER =>
      if !s.registered ovpn then
        (NOTIFY_DONE, s)
      else
        (NOTIFY_OK, ovpn_iface_destruct s ovpn false)
    | .NETDEV_GOING_DOWN => (NOTIFY_OK, s)
    | .NETDEV_DOWN => (NOTIFY_OK, s)
    | .NETDEV_UP => (NOTIFY_OK, s)
    | .NETDEV_PRE_UP => (NOTIFY_OK, s)
    | .other _ => (NOTIFY_DONE, s)

/-- One step of the lifecycle: a notification from the host stack, or a direct
call of `ovpn_iface_destruct`. -/
inductive step where
  | notify (state : netdev_event) (dev : net_device)
  | destruct (ovpn : Nat) (unregister_netdev : Bool)

/-- Effect of one step on the state. -/
def exec (s : State) : step → State
  | step.notify state dev => (ovpn_netdev_notifier_call s state dev).2
  | step.destruct ovpn unregister_netdev => ovpn_iface_destruct s ovpn unregister_netdev

/-- Effect of a sequence of steps, first step first. -/
def run (s : State) : List step → State
  | [] => s
  | st :: rest => run (exec s st) rest

/-- A device of this driver with identity `i`. -/
def ovpn_dev (i : Nat) : net_device := { ifindex := i, netdev_ops := ovpn_netdev_ops }

/-- Whether a step keeps to the host's delivery protocol for
`NETDEV_REGISTER`: the event is never announced for a device of this driver
whose `registered` flag is still set. -/
def register_is_fresh (s : State) : step → Bool
  | step.notify netdev_event.NETDEV_REGISTER dev =>
    !ovpn_dev_is_valid dev || !s.registered dev.ifindex
  | _ => true

/-- Whether every step of a sequence, taken in the state it is executed in,
keeps to the delivery protocol of `register_is_fresh`. -/
def well_sequenced (s : State) : List step → Bool
  | [] => true
  | st :: rest => register_is_fresh s st && well_sequenced (exec s st) rest

/-! ## Interface creation -/

/-- What the host stack does with `register_netdevice(dev)`: the code it
returns and, when it fails, whether the failure came before the device was
announced or after (`announced`: a later subscriber rejected
`NETDEV_REGISTER`, and the host rolled the announcement back). -/
structure host_register where
  ret : Int
  announced : Bool
  deriving DecidableEq, Repr

/-- Deliver events for `dev` to the notifier, first event first. -/
def deliver (s : State) (dev : net_device) : List netdev_event → State
  | [] => s
  | e :: es => deliver (ovpn_netdev_notifier_call s e dev).2 dev es

/-- Host-stack `register_netdevice(dev)` as the driver observes it, through
the return code and the notifications it receives meanwhile: a successful
registration announces `NETDEV_POST_INIT` and `NETDEV_REGISTER`; a failure
announces nothing, or announces the device and takes the announcement back
with `NETDEV_UNREGISTER`. -/
def register_netdevice (h : host_register) (s : State) (dev : net_device) : Int × State :=
  if h.ret < 0 then
    if h.announced then
      (h.ret, deliver s dev
        [.NETDEV_POST_INIT, .NETDEV_REGISTER, .NETDEV_UNREGISTER])
    else
      (h.ret, s)
  else
    (h.ret, deliver s dev [.NETDEV_POST_INIT, .NETDEV_REGISTER])

/-- Acquire the RTNL mutex (`rtnl_lock`). -/
def rtnl_lock (s : State) : State := { s with rtnl_held := true }

/-- Release the RTNL mutex (`rtnl_unlock`). -/
def rtnl_unlock (s : State) : State := { s with rtnl_held := false }

/-- Hand a device back to the allocator (`free_netdev`). -/
def free_netdev (s : State) (dev : Nat) : State := { s with freed := s.freed ++ [dev] }

/-- Function `ovpn_iface_create(name, mode, net)`.

`id` is the identity of the device `alloc_netdev` hands out (set up by
`ovpn_setup`, hence carrying `ovpn_netdev_ops`; the code does not test the
allocation, which is taken to succeed), `struct_init_ret` is the code returned
by `ovpn_struct_init(dev)` and `h` describes what `register_netdevice(dev)`
does.  Returns the return code and the new state. -/
def ovpn_iface_create (s : State) (id : Nat) (name : String) (mode : Nat) (net : Nat)
    (struct_init_ret : Int) (h : host_register) : Int × State :=
  let dev := ovpn_dev id
  let s0 := { s with name := Function.update s.name id name }
  let s1 := { s0 with dev_net := Function.update s0.dev_net id net }
  if struct_init_ret < 0 then
    (struct_init_ret, free_netdev s1 id)
  else
    let s2 := { s1 with mode := Function.update s1.mode id mode }
    let s3 := rtnl_lock s2
    let r := register_netdevice h s3 dev
    if r.1 < 0 then
      let s4 := rtnl_unlock r.2
      (r.1, free_netdev s4 id)
    else
      let s4 := rtnl_unlock r.2
      (r.1, s4)

/-! ## Resource release -/

/-- Point-to-point mode (`OVPN_MODE_P2P`, the first value of `enum ovpn_mode`). -/
def OVPN_MODE_P2P : Nat := 0

/-- Multi-peer mode (`OVPN_MODE_MP`). -/
def OVPN_MODE_MP : Nat := 1

/-- The two work queues of an interface. -/
inductive workqueue where
  | crypto_wq
  | events_wq
  deriving DecidableEq, Repr

/-- The calls `ovpn_struct_free` can make. -/
inductive free_call where
  | ovpn_peer_release_p2p
  | ovpn_peers_free
  | security_tun_dev_free_security
  | free_percpu
  | flush_workqueue (wq : workqueue)
  | destroy_workqueue (wq : workqueue)
  | rcu_barrier
  deriving DecidableEq, Repr

/-- Function `ovpn_struct_free(net)`: the calls it makes, in program order, for the
interface `net` whose mode is `s.mode net`. -/
def ovpn_struct_free (s : State) (net : Nat) : List free_call :=
  let peers :=
    if s.mode net = OVPN_MODE_P2P then
      [free_call.ovpn_peer_release_p2p]
    else
      [free_call.ovpn_peers_free]
  peers ++
    [ free_call.security_tun_dev_free_security,
      free_call.free_percpu,
      free_call.flush_workqueue workqueue.crypto_wq,
      free_call.flush_workqueue workqueue.events_wq,
      free_call.destroy_workqueue workqueue.crypto_wq,
      free_call.destroy_workqueue workqueue.events_wq,
      free_call.rcu_barrier ]

/-- Position of the first occurrence of a call in a trace. -/
def position (c : free_call) (trace : List free_call) : Nat := trace.indexOf c

/-! ## Device setup -/

/-- Size of `u32`. -/
def sizeof_u32 : Nat := 4

/-- Size of `struct udphdr`. -/
def sizeof_udphdr : Nat := 8

/-- Size of `struct ipv6hdr`. -/
def sizeof_ipv6hdr : Nat := 40

/-- Size of `struct iphdr`. -/
def sizeof_iphdr : Nat := 20

/-- Default Ethernet payload size (`ETH_DATA_LEN`). -/
def ETH_DATA_LEN : Int := 1500

/-- Smallest MTU IPv4 allows (`IPV4_MIN_MTU`). -/
def IPV4_MIN_MTU : Nat := 68

/-- Largest IP datagram (`IP_MAX_MTU`, 0xFFFF). -/
def IP_MAX_MTU : Int := 0xFFFF

/-- Device type "no link-layer header" (`ARPHRD_NONE`). -/
def ARPHRD_NONE : Nat := 0xFFFE

/-- Interface flag `IFF_POINTOPOINT`. -/
def IFF_POINTOPOINT : Nat := 0x10

/-- Interface flag `IFF_NOARP`. -/
def IFF_NOARP : Nat := 0x80

/-- Padding budget `OVPN_MAX_PADDING` of `main.h`. -/
def OVPN_MAX_PADDING : Nat := 16

/-- Macro `SKB_HEADER_LEN` of `main.h`; `net_skb_pad` is the platform's
`NET_SKB_PAD`. -/
def SKB_HEADER_LEN (net_skb_pad : Nat) : Nat :=
  max sizeof_iphdr sizeof_ipv6hdr + sizeof_udphdr + net_skb_pad

/-- Kernel `ALIGN(x, a)` for a power of two `a`: round `x` up to a multiple of `a`. -/
def ALIGN (x a : Nat) : Nat := (x + (a - 1)) / a * a

/-- Macro `OVPN_HEAD_ROOM` of `main.h`. -/
def OVPN_HEAD_ROOM (net_skb_pad : Nat) : Nat := ALIGN (16 + SKB_HEADER_LEN net_skb_pad) 4

/-- Conversion of a `size_t` value to `int` (two's complement, 32 bits). -/
def int_of_size (n : Nat) : Int :=
  if n % 2 ^ 32 < 2 ^ 31 then (n % 2 ^ 32 : Nat) else ((n % 2 ^ 32 : Nat) : Int) - 2 ^ 32

/-- Conversion of an integer to `unsigned int` (32 bits). -/
def u32_of_int (z : Int) : Nat := (z % 2 ^ 32).toNat

/-- The `overhead` local of `ovpn_setup`: the sum is formed in `size_t`
(64 bits) and stored in an `int`; `nonce_wire_size` is `NONCE_WIRE_SIZE`. -/
def overhead (nonce_wire_size : Nat) : Int :=
  int_of_size
    ((sizeof_u32 + nonce_wire_size + 16 + sizeof_udphdr + max sizeof_ipv6hdr sizeof_iphdr)
      % 2 ^ 64)

/-- The fields of `struct net_device` that `ovpn_setup` assigns. -/
structure setup_fields where
  needs_free_netdev : Bool
  netdev_ops : net_device_ops
  hard_header_len : Nat
  addr_len : Nat
  mtu : Nat
  min_mtu : Nat
  max_mtu : Nat
  type : Nat
  flags : Nat
  needed_headroom : Nat
  needed_tailroom : Nat
  deriving DecidableEq, Repr

/-- Function `ovpn_setup(dev)`: the values it assigns, given the two platform
constants `NONCE_WIRE_SIZE` and `NET_SKB_PAD`.  `mtu`, `min_mtu` and `max_mtu`
are `unsigned int`, the two room fields `unsigned short`.  The feature masks
and the `ethtool_ops` and `priv_destructor` pointers are left out. -/
def ovpn_setup (nonce_wire_size net_skb_pad : Nat) : setup_fields :=
  { needs_free_netdev := true
    netdev_ops := ovpn_netdev_ops
    hard_header_len := 0
    addr_len := 0
    mtu := u32_of_int (ETH_DATA_LEN - overhead nonce_wire_size)
    min_mtu := IPV4_MIN_MTU
    max_mtu := u32_of_int (IP_MAX_MTU - overhead nonce_wire_size)
    type := ARPHRD_NONE
    flags := IFF_POINTOPOINT ||| IFF_NOARP
    needed_headroom := OVPN_HEAD_ROOM net_skb_pad % 2 ^ 16
    needed_tailroom := OVPN_MAX_PADDING % 2 ^ 16 }

/-! ## Module load and unload -/

/-- The process-wide subsystems brought up at module load. -/
inductive subsystem where
  | tcp
  | netlink
  | notifier
  deriving DecidableEq, Repr

/-- The calls `ovpn_init` and `ovpn_cleanup` can make. -/
inductive module_call where
  | ovpn_tcp_init
  | ovpn_nl_register
  | register_netdevice_notifier
  | unregister_netdevice_notifier
  | ovpn_nl_unregister
  | rcu_barrier
  deriving DecidableEq, Repr

/-- Function `ovpn_init()`: the code it returns and the calls it makes, in program
order, given the codes returned by `ovpn_tcp_init`, `ovpn_nl_register` and
`register_netdevice_notifier`. -/
def ovpn_init (tcp_ret nl_ret nb_ret : Int) : Int × List module_call :=
  if tcp_ret ≠ 0 then
    (tcp_ret, [module_call.ovpn_tcp_init])
  else if nl_ret ≠ 0 then
    (nl_ret, [module_call.ovpn_tcp_init, module_call.ovpn_nl_register])
  else if nb_ret ≠ 0 then
    (nb_ret,
      [module_call.ovpn_tcp_init, module_call.ovpn_nl_register,
        module_call.register_netdevice_notifier, module_call.ovpn_nl_unregister])
  else
    (0,
      [module_call.ovpn_tcp_init, module_call.ovpn_nl_register,
        module_call.register_netdevice_notifier])

/-- Function `ovpn_cleanup()`: the calls it makes, in program order. -/
def ovpn_cleanup : List module_call :=
  [module_call.unregister_netdevice_notifier, module_call.ovpn_nl_unregister,
    module_call.rcu_barrier]

/-- The subsystem a call tears down, if it tears one down. -/
def torn_down_by : module_call → Option subsystem
  | module_call.unregister_netdevice_notifier => some subsystem.notifier
  | module_call.ovpn_nl_unregister => some subsystem.netlink
  | _ => none

/-- The subsystems torn down by a trace of calls, in the order of the calls. -/
def torn_down (trace : List module_call) : List subsystem := trace.filterMap torn_down_by

/-- The subsystems whose start-up step ran and returned zero, in start-up
order: a step runs only when every step before it returned zero. -/
def started (tcp_ret nl_ret nb_ret : Int) : List subsystem :=
  if tcp_ret ≠ 0 then []
  else if nl_ret ≠ 0 then [subsystem.tcp]
  else if nb_ret ≠ 0 then [subsystem.tcp, subsystem.netlink]
  else [subsystem.tcp, subsystem.netlink, subsystem.notifier]

/-- The registry invariant in its inductive form: no entry is linked twice,
and membership coincides with the flag. -/
def registry_ok (s : State) : Prop :=
  s.dev_list.Nodup ∧ ∀ i, i ∈ s.dev_list ↔ s.registered i = true

/-- A state in which interface 0 is registered, linked on `dev_list`, and holds
one device reference. -/
def one_registered : State :=
  { State.init with
    dev_list := [0]
    registered := Function.update (fun _ => false) 0 true
    refcnt := Function.update (fun _ => 0) 0 1 }

/-- Steps that announce device 0 a second time while it is still registered:
`NETDEV_REGISTER` for 0, for 1 and for 0 again, then `NETDEV_UNREGISTER` for 0. -/
def double_register_steps : List step :=
  [ step.notify netdev_event.NETDEV_REGISTER (ovpn_dev 0),
    step.notify netdev_event.NETDEV_REGISTER (ovpn_dev 1),
    step.notify netdev_event.NETDEV_REGISTER (ovpn_dev 0),
    step.notify netdev_event.NETDEV_UNREGISTER (ovpn_dev 0) ]

/-- A device that belongs to another driver. -/
def foreign_dev (i : Nat) : net_device :=
  { ifindex := i, netdev_ops := { ndo_start_xmit := xmit_fn.foreign 7 } }

/-- Steps that keep to the delivery protocol: register 0 and 1, unregister 0
twice, register 0 again, destroy 1 directly, announce a foreign device. -/
def lifecycle_steps : List step :=
  [ step.notify netdev_event.NETDEV_REGISTER (ovpn_dev 0),
    step.notify netdev_event.NETDEV_REGISTER (ovpn_dev 1),
    step.notify netdev_event.NETDEV_UNREGISTER (ovpn_dev 0),
    step.notify netdev_event.NETDEV_UNREGISTER (ovpn_dev 0),
    step.notify netdev_event.NETDEV_REGISTER (ovpn_dev 0),
    step.destruct 1 true,
    step.notify netdev_event.NETDEV_REGISTER (foreign_dev 0) ]

theorem destruct_dev_list (s : State) (i : Nat) (u : Bool) :
    (ovpn_iface_destruct s i u).dev_list = s.dev_list.erase i := by
  cases u <;> simp [ovpn_iface_destruct, list_del]

theorem destruct_registered (s : State) (i : Nat) (u : Bool) :
    (ovpn_iface_destruct s i u).registered = Function.update s.registered i false := by
  cases u <;> simp [ovpn_iface_destruct]

theorem destruct_refcnt (s : State) (i : Nat) (u : Bool) :
    (ovpn_iface_destruct s i u).refcnt = Function.update s.refcnt i (s.refcnt i - 1) := by
  cases u <;> simp [ovpn_iface_destruct]

theorem destruct_unregistering (s : State) (i : Nat) (u : Bool) :
    (ovpn_iface_destruct s i u).unregistering
      = s.unregistering ++ (if u then [i] else []) := by
  cases u <;> simp [ovpn_iface_destruct]

theorem destruct_frame (s : State) (i : Nat) (u : Bool) :
    (ovpn_iface_destruct s i u).freed = s.freed
    ∧ (ovpn_iface_destruct s i u).rtnl_held = s.rtnl_held
    ∧ (ovpn_iface_destruct s i u).mode = s.mode
    ∧ (ovpn_iface_destruct s i u).dev_net = s.dev_net
    ∧ (ovpn_iface_destruct s i u).name = s.name := by
  cases u <;> simp [ovpn_iface_destruct]

theorem registry_ok_init : registry_ok State.init := by
  simp [registry_ok, State.init]

theorem registry_ok_destruct (s : State) (i : Nat) (u : Bool) (h : registry_ok s) :
    registry_ok (ovpn_iface_destruct s i u) := by
  obtain ⟨hnd, hmem⟩ := h
  refine ⟨?_, ?_⟩
  · rw [destruct_dev_list]
    exact hnd.erase i
  · intro j
    rw [destruct_dev_list, destruct_registered, hnd.mem_erase_iff]
    by_cases hj : j = i
    · subst hj
      simp
    · simp [Function.update_noteq hj, hj, hmem]

theorem registry_ok_exec (s : State) (st : step) (h : registry_ok s)
    (hf : register_is_fresh s st = true) : registry_ok (exec s st) := by
  cases st with
  | destruct i u => exact registry_ok_destruct s i u h
  | notify ev dev =>
    by_cases hv : ovpn_dev_is_valid dev = true
    · cases ev with
      | NETDEV_REGISTER =>
        have hreg : s.registered dev.ifindex = false := by
          simpa [register_is_fresh, hv] using hf
        obtain ⟨hnd, hmem⟩ := h
        have hnot : dev.ifindex ∉ s.dev_list := by
          intro hin
          have := (hmem dev.ifindex).1 hin
          simp [hreg] at this
        refine ⟨?_, ?_⟩
        · simpa [exec, ovpn_netdev_notifier_call, hv, list_add] using
            List.nodup_cons.2 ⟨hnot, hnd⟩
        · intro j
          by_cases hj : j = dev.ifindex
          · subst hj
            simp [exec, ovpn_netdev_notifier_call, hv, list_add]
          · simp [exec, ovpn_netdev_notifier_call, hv, list_add, Function.update_noteq hj,
              hj, hmem]
      | NETDEV_UNREGISTER =>
        by_cases hr : s.registered dev.ifindex = true
        · simpa [exec, ovpn_netdev_notifier_call, hv, hr] using
            registry_ok_destruct s dev.ifindex false h
        · simpa [exec, ovpn_netdev_notifier_call, hv, hr] using h
      | _ => simpa [exec, ovpn_netdev_notifier_call, hv] using h
    · simpa [exec, ovpn_netdev_notifier_call, hv] using h

theorem registry_ok_run (steps : List step) :
    ∀ s : State, registry_ok s → well_sequenced s steps = true → registry_ok (run s steps) := by
  induction steps with
  | nil => intro s h _; simpa [run] using h
  | cons st rest ih =>
    intro s h hw
    simp only [well_sequenced, Bool.and_eq_true] at hw
    exact ih (exec s st) (registry_ok_exec s st h hw.1) hw.2

/-! ### The list operations against the `next`/`prev` fields -/

theorem store_next_entry (l : list_links) (i : Nat) (v : list_ptr) :
    store_next l (list_ptr.entry i) v
      = some { l with next := Function.update l.next (list_ptr.entry i) v } := rfl

theorem store_next_head (l : list_links) (v : list_ptr) :
    store_next l list_ptr.head v
      = some { l with next := Function.update l.next list_ptr.head v } := rfl

theorem store_prev_entry (l : list_links) (i : Nat) (v : list_ptr) :
    store_prev l (list_ptr.entry i) v
      = some { l with prev := Function.update l.prev (list_ptr.entry i) v } := rfl

theorem store_prev_head (l : list_links) (v : list_ptr) :
    store_prev l list_ptr.head v
      = some { l with prev := Function.update l.prev list_ptr.head v } := rfl

/-- A chain survives any change of fields it does not read. -/
theorem links_chain_congr (l l' : list_links) (xs : List Nat) :
    ∀ p : list_ptr,
      l'.next p = l.next p →
      (∀ x ∈ xs, l'.next (list_ptr.entry x) = l.next (list_ptr.entry x)) →
      (∀ x ∈ xs, l'.prev (list_ptr.entry x) = l.prev (list_ptr.entry x)) →
      l'.prev list_ptr.head = l.prev list_ptr.head →
      links_chain l p xs → links_chain l' p xs := by
  induction xs with
  | nil =>
    intro p hp _ _ hh hc
    exact ⟨by rw [hp]; exact hc.1, by rw [hh]; exact hc.2⟩
  | cons x xs ih =>
    intro p hp hn hv hh hc
    refine ⟨by rw [hp]; exact hc.1, ?_, ?_⟩
    · rw [hv x (List.mem_cons_self x xs)]; exact hc.2.1
    · exact ih (list_ptr.entry x) (hn x (List.mem_cons_self x xs))
        (fun y hy => hn y (List.mem_cons_of_mem x hy))
        (fun y hy => hv y (List.mem_cons_of_mem x hy)) hh hc.2.2

/-- The fields after `list_add`, when the head's successor is the head or an
entry. -/
theorem links_add_eq (l : list_links) (x : Nat) (q : list_ptr)
    (hq : l.next list_ptr.head = q) (hq' : q = list_ptr.head ∨ ∃ y, q = list_ptr.entry y) :
    links_add l (list_ptr.entry x)
      = some
        { next := Function.update (Function.update l.next (list_ptr.entry x) q)
            list_ptr.head (list_ptr.entry x)
          prev := Function.update (Function.update l.prev q (list_ptr.entry x))
            (list_ptr.entry x) list_ptr.head } := by
  rcases hq' with rfl | ⟨y, rfl⟩ <;>
    simp [links_add, hq, store_prev_head, store_next_entry, store_prev_entry, store_next_head]

/-- On a well-formed list, `list_add` of an entry that is not linked performs
its four stores without a fault and yields the well-formed list with the entry
in front. -/
theorem links_add_refines (l : list_links) (xs : List Nat) (x : Nat)
    (h : links_hold l xs) (hx : x ∉ xs) :
    ∃ l', links_add l (list_ptr.entry x) = some l' ∧ links_hold l' (list_add x xs) := by
  unfold list_add
  obtain ⟨hnd, hc⟩ := h
  cases xs with
  | nil =>
    obtain ⟨h1, h2⟩ := hc
    refine ⟨_, links_add_eq l x list_ptr.head h1 (Or.inl rfl), List.nodup_cons.2 ⟨hx, hnd⟩, ?_⟩
    simp [links_chain]
  | cons y ys =>
    obtain ⟨h1, h2, h3⟩ := hc
    have hxy : x ≠ y := fun e => hx (e ▸ List.mem_cons_self y ys)
    have hxys : x ∉ ys := fun e => hx (List.mem_cons_of_mem y e)
    have hyys : y ∉ ys := (List.nodup_cons.1 hnd).1
    refine ⟨_, links_add_eq l x (list_ptr.entry y) h1 (Or.inr ⟨y, rfl⟩),
      List.nodup_cons.2 ⟨hx, hnd⟩, ?_⟩
    refine ⟨by simp, by simp, by simp [Function.update_noteq, hxy], ?_, ?_⟩
    · simp [Function.update_noteq, hxy, Ne.symm hxy]
    · refine links_chain_congr l _ ys (list_ptr.entry y) ?_ ?_ ?_ ?_ h3
      · simp [Function.update_noteq, hxy, Ne.symm hxy]
      · intro z hz
        have hzx : z ≠ x := fun e => hxys (e ▸ hz)
        simp [Function.update_noteq, hzx]
      · intro z hz
        have hzx : z ≠ x := fun e => hxys (e ▸ hz)
        have hzy : z ≠ y := fun e => hyys (e ▸ hz)
        simp [Function.update_noteq, hzx, hzy]
      · simp [Function.update_noteq]

/-- The fields of `LIST_HEAD(dev_list)` form the empty list. -/
theorem links_hold_init : links_hold list_links.init [] := by
  simp [links_hold, links_chain, list_links.init]

/-- C1, as stated, fails: `NETDEV_REGISTER` for device 0, for device 1 and
again for device 0, then `NETDEV_UNREGISTER` for device 0, leave interface 0
linked on `dev_list` (which reads `[1, 0]`) with its `registered` flag clear.
The same four list operations carried out on the `next`/`prev` fields fault
nowhere and leave a list whose walk from the head meets entry 1 and then
entry 0. -/
theorem registry_flag_double_register :
    (run State.init double_register_steps).dev_list = [1, 0]
    ∧ (run State.init double_register_steps).registered 0 = false
    ∧ links_after_double_register.map
        (fun l => links_walk l 4 (l.next list_ptr.head)) = some [1, 0]
    ∧ ¬ (∀ (steps : List step) (i : Nat),
          i ∈ (run State.init steps).dev_list ↔ (run State.init steps).registered i = true) := by
  refine ⟨by decide, by decide, by decide, ?_⟩
  intro h
  have h0 := h double_register_steps 0
  revert h0
  decide

/-- C1, amended: starting from the empty registry with every flag clear, after
every finite sequence of notifier calls (any event, any device) and direct
`ovpn_iface_destruct` calls (either value of `unregister_netdev`) in which
`NETDEV_REGISTER` is never delivered for a device of this driver whose
`registered` flag is still set, an interface is linked on `dev_list` if and
only if its `registered` flag is set (and no interface is linked twice). -/
theorem registry_flag_invariant (steps : List step)
    (hseq : well_sequenced State.init steps = true) :
    (∀ i, i ∈ (run State.init steps).dev_list ↔ (run State.init steps).registered i = true)
    ∧ (run State.init steps).dev_list.Nodup :=
  have h := registry_ok_run steps State.init registry_ok_init hseq
  ⟨h.2, h.1⟩

/-- The amended C1 at `lifecycle_steps`, which end with interface 0 alone on
`dev_list`. -/
theorem registry_flag_invariant_witness :
    well_sequenced State.init lifecycle_steps = true
    ∧ (run State.init lifecycle_steps).dev_list = [0]
    ∧ ((∀ i, i ∈ (run State.init lifecycle_steps).dev_list
          ↔ (run State.init lifecycle_steps).registered i = true)
      ∧ (run State.init lifecycle_steps).dev_list.Nodup) :=
  ⟨by decide, by decide, registry_flag_invariant lifecycle_steps (by decide)⟩

/-! ### Duplicate unregister notifications -/

/-- C2: for a registered interface of this driver, the first
`NETDEV_UNREGISTER` returns `NOTIFY_OK` and runs exactly
`ovpn_iface_destruct(ovpn, false)`; a second delivery returns `NOTIFY_DONE`
and leaves the whole state as the first left it, so that over both deliveries
the reference count dropped by exactly one, one link was removed from
`dev_list`, and nothing was handed to `unregister_netdevice`. -/
theorem unregister_twice_one_teardown (s : State) (dev : net_device)
    (hvalid : ovpn_dev_is_valid dev = true) (hreg : s.registered dev.ifindex = true) :
    ovpn_netdev_notifier_call s netdev_event.NETDEV_UNREGISTER dev
        = (NOTIFY_OK, ovpn_iface_destruct s dev.ifindex false)
    ∧ ovpn_netdev_notifier_call
          (ovpn_netdev_notifier_call s netdev_event.NETDEV_UNREGISTER dev).2
          netdev_event.NETDEV_UNREGISTER dev
        = (NOTIFY_DONE, (ovpn_netdev_notifier_call s netdev_event.NETDEV_UNREGISTER dev).2)
    ∧ (deliver s dev [netdev_event.NETDEV_UNREGISTER, netdev_event.NETDEV_UNREGISTER]).refcnt
          dev.ifindex = s.refcnt dev.ifindex - 1
    ∧ (deliver s dev [netdev_event.NETDEV_UNREGISTER, netdev_event.NETDEV_UNREGISTER]).dev_list
        = s.dev_list.erase dev.ifindex
    ∧ (deliver s dev
          [netdev_event.NETDEV_UNREGISTER, netdev_event.NETDEV_UNREGISTER]).registered dev.ifindex
        = false
    ∧ (deliver s dev
          [netdev_event.NETDEV_UNREGISTER, netdev_event.NETDEV_UNREGISTER]).unregistering
        = s.unregistering := by
  have h1 : ovpn_netdev_notifier_call s netdev_event.NETDEV_UNREGISTER dev
      = (NOTIFY_OK, ovpn_iface_destruct s dev.ifindex false) := by
    simp [ovpn_netdev_notifier_call, hvalid, hreg]
  have h2 : ovpn_netdev_notifier_call (ovpn_iface_destruct s dev.ifindex false)
      netdev_event.NETDEV_UNREGISTER dev
      = (NOTIFY_DONE, ovpn_iface_destruct s dev.ifindex false) := by
    simp [ovpn_netdev_notifier_call, hvalid, destruct_registered]
  refine ⟨h1, ?_, ?_, ?_, ?_, ?_⟩
  · rw [h1]; exact h2
  · simp [deliver, h1, h2, destruct_refcnt]
  · simp [deliver, h1, h2, destruct_dev_list]
  · simp [deliver, h1, h2, destruct_registered]
  · simp [deliver, h1, h2, destruct_unregistering]

/-- C2 at the state `one_registered` and device 0: after both deliveries the
reference count went from 1 to 0 and `dev_list` is empty. -/
theorem unregister_twice_one_teardown_witness :
    ovpn_dev_is_valid (ovpn_dev 0) = true
    ∧ one_registered.registered (ovpn_dev 0).ifindex = true
    ∧ (deliver one_registered (ovpn_dev 0)
        [netdev_event.NETDEV_UNREGISTER, netdev_event.NETDEV_UNREGISTER]).refcnt 0 = 0
    ∧ (deliver one_registered (ovpn_dev 0)
        [netdev_event.NETDEV_UNREGISTER, netdev_event.NETDEV_UNREGISTER]).dev_list = [] := by
  have h := unregister_twice_one_teardown one_registered (ovpn_dev 0) (by decide) (by decide)
  refine ⟨by decide, by decide, ?_, ?_⟩
  · have h3 := h.2.2.1
    simpa [one_registered, ovpn_dev] using h3
  · have h4 := h.2.2.2.1
    simpa [one_registered, ovpn_dev, State.init] using h4

/-! ### Repeated teardown -/

/-- C3, as stated, fails: on `one_registered`, the first
`ovpn_iface_destruct(ovpn, true)` for interface 0 takes the reference count
from 1 to 0 and a second call takes it to -1: the second call drops a second
device reference, so two calls do not yield the state one call yields. -/
theorem destruct_twice_differs :
    one_registered.refcnt 0 = 1
    ∧ (ovpn_iface_destruct one_registered 0 true).refcnt 0 = 0
    ∧ (ovpn_iface_destruct (ovpn_iface_destruct one_registered 0 true) 0 true).refcnt 0 = -1
    ∧ ¬ (∀ (s : State) (ovpn : Nat) (unregister_netdev : Bool),
          ovpn_iface_destruct (ovpn_iface_destruct s ovpn unregister_netdev) ovpn
              unregister_netdev
            = ovpn_iface_destruct s ovpn unregister_netdev) := by
  refine ⟨by decide, by decide, by decide, ?_⟩
  intro h
  have h0 := congrArg (fun t : State => t.refcnt 0) (h one_registered 0 true)
  revert h0
  decide

/-- C3, amended: `ovpn_iface_destruct` has no guard of its own, and a second
direct call drops a second device reference.  The duplicate the code absorbs
is a `NETDEV_UNREGISTER` notification that follows `ovpn_iface_destruct`
(either value of `unregister_netdev`): the notifier finds the flag clear,
returns `NOTIFY_DONE` and leaves the state as it was, so no second reference
is dropped, nothing further is removed from the registry and no further
unregistration is requested; this holds however often the notification is
repeated. -/
theorem duplicate_teardown_absorbed_by_notifier (s : State) (dev : net_device)
    (unregister_netdev : Bool) (hvalid : ovpn_dev_is_valid dev = true) :
    ovpn_netdev_notifier_call (ovpn_iface_destruct s dev.ifindex unregister_netdev)
        netdev_event.NETDEV_UNREGISTER dev
      = (NOTIFY_DONE, ovpn_iface_destruct s dev.ifindex unregister_netdev)
    ∧ (∀ n : Nat,
        deliver (ovpn_iface_destruct s dev.ifindex unregister_netdev) dev
            (List.replicate n netdev_event.NETDEV_UNREGISTER)
          = ovpn_iface_destruct s dev.ifindex unregister_netdev)
    ∧ (ovpn_iface_destruct (ovpn_iface_destruct s dev.ifindex unregister_netdev) dev.ifindex
        unregister_netdev).refcnt dev.ifindex
      = (ovpn_iface_destruct s dev.ifindex unregister_netdev).refcnt dev.ifindex - 1 := by
  have h1 : ovpn_netdev_notifier_call (ovpn_iface_destruct s dev.ifindex unregister_netdev)
      netdev_event.NETDEV_UNREGISTER dev
      = (NOTIFY_DONE, ovpn_iface_destruct s dev.ifindex unregister_netdev) := by
    simp [ovpn_netdev_notifier_call, hvalid, destruct_registered]
  refine ⟨h1, ?_, ?_⟩
  · intro n
    induction n with
    | zero => rfl
    | succ k ih =>
      rw [List.replicate_succ]
      simp only [deliver, h1]
      exact ih
  · simp [destruct_refcnt]

/-- The amended C3 at `one_registered`, device 0, `unregister_netdev = true`:
the notification that follows the teardown changes nothing. -/
theorem duplicate_teardown_absorbed_by_notifier_witness :
    ovpn_dev_is_valid (ovpn_dev 0) = true
    ∧ ovpn_netdev_notifier_call (ovpn_iface_destruct one_registered 0 true)
        netdev_event.NETDEV_UNREGISTER (ovpn_dev 0)
      = (NOTIFY_DONE, ovpn_iface_destruct one_registered 0 true) :=
  ⟨by decide, (duplicate_teardown_absorbed_by_notifier one_registered (ovpn_dev 0) true
    (by decide)).1⟩

/-! ### Foreign devices -/

/-- C4: for every event and every device whose transmit handler is not
`ovpn_net_xmit`, the notifier returns `NOTIFY_DONE` and leaves the state, hence
`dev_list` and every `registered` flag, unchanged. -/
theorem notifier_ignores_foreign (s : State) (state : netdev_event) (dev : net_device)
    (hforeign : ovpn_dev_is_valid dev = false) :
    ovpn_netdev_notifier_call s state dev = (NOTIFY_DONE, s)
    ∧ (ovpn_netdev_notifier_call s state dev).2.dev_list = s.dev_list
    ∧ (ovpn_netdev_notifier_call s state dev).2.registered = s.registered := by
  have h : ovpn_netdev_notifier_call s state dev = (NOTIFY_DONE, s) := by
    simp [ovpn_netdev_notifier_call, hforeign]
  simp [h]

/-- C4 at `NETDEV_REGISTER` for a foreign device with the identity of the
registered interface 0. -/
theorem notifier_ignores_foreign_witness :
    ovpn_dev_is_valid (foreign_dev 0) = false
    ∧ ovpn_netdev_notifier_call one_registered netdev_event.NETDEV_REGISTER (foreign_dev 0)
      = (NOTIFY_DONE, one_registered) :=
  ⟨by decide, (notifier_ignores_foreign one_registered netdev_event.NETDEV_REGISTER
    (foreign_dev 0) (by decide)).1⟩

/-! ### Effect of `ovpn_iface_destruct` -/

/-- C9: for a device of this driver and every event other than
`NETDEV_REGISTER` and `NETDEV_UNREGISTER`, the notifier leaves the state, hence
`dev_list` and every `registered` flag, unchanged; it returns `NOTIFY_OK` for
post-init, going-down, down, up and pre-up and `NOTIFY_DONE` for every other
event, and the result never carries the veto bit `NOTIFY_STOP_MASK`. -/
theorem notifier_informational (s : State) (state : netdev_event) (dev : net_device)
    (hvalid : ovpn_dev_is_valid dev = true)
    (hreg : state ≠ netdev_event.NETDEV_REGISTER)
    (hunreg : state ≠ netdev_event.NETDEV_UNREGISTER) :
    (ovpn_netdev_notifier_call s state dev).2 = s
    ∧ (state ∈ [netdev_event.NETDEV_POST_INIT, netdev_event.NETDEV_GOING_DOWN,
          netdev_event.NETDEV_DOWN, netdev_event.NETDEV_UP, netdev_event.NETDEV_PRE_UP] →
        (ovpn_netdev_notifier_call s state dev).1 = NOTIFY_OK)
    ∧ (state ∉ [netdev_event.NETDEV_POST_INIT, netdev_event.NETDEV_GOING_DOWN,
          netdev_event.NETDEV_DOWN, netdev_event.NETDEV_UP, netdev_event.NETDEV_PRE_UP] →
        (ovpn_netdev_notifier_call s state dev).1 = NOTIFY_DONE)
    ∧ (∀ code, (ovpn_netdev_notifier_call s (netdev_event.other code) dev).1 = NOTIFY_DONE)
    ∧ (ovpn_netdev_notifier_call s state dev).1 &&& NOTIFY_STOP_MASK = 0 := by
  cases state <;>
    simp [ovpn_netdev_notifier_call, hvalid, NOTIFY_OK, NOTIFY_DONE, NOTIFY_STOP_MASK] at *

/-- C9 at `NETDEV_PRE_UP` for the registered interface 0: accepted, nothing
changes. -/
theorem notifier_informational_witness :
    ovpn_dev_is_valid (ovpn_dev 0) = true
    ∧ (ovpn_netdev_notifier_call one_registered netdev_event.NETDEV_PRE_UP (ovpn_dev 0)).2
        = one_registered
    ∧ (ovpn_netdev_notifier_call one_registered netdev_event.NETDEV_PRE_UP (ovpn_dev 0)).1
        = NOTIFY_OK := by
  have h := notifier_informational one_registered netdev_event.NETDEV_PRE_UP (ovpn_dev 0)
    (by decide) (by decide) (by decide)
  exact ⟨by decide, h.1, h.2.1 (by decide)⟩

/-! ### Interface creation -/

/-- C6: `ovpn_iface_create` on a freshly allocated device (its `registered`
flag is clear), entered without the RTNL mutex.  If `ovpn_struct_init` returns
a negative code, or it does not and `register_netdevice` returns a negative
code, then `ovpn_iface_create` returns that code, `free_netdev` is called on
the device exactly once, the mutex is not held on return, and `dev_list` and
every `registered` flag are as before.  If neither code is negative it
returns the code of `register_netdevice` (0 when both return 0), the device is
not freed, the mutex is not held, the interface carries the requested mode
and is linked on `dev_list` with its flag set. -/
theorem create_atomic (s : State) (id : Nat) (name : String) (mode net : Nat)
    (struct_init_ret : Int) (h : host_register)
    (hlock : s.rtnl_held = false) (hfresh : s.registered id = false) :
    (struct_init_ret < 0 →
      (ovpn_iface_create s id name mode net struct_init_ret h).1 = struct_init_ret
      ∧ (ovpn_iface_create s id name mode net struct_init_ret h).2.freed = s.freed ++ [id]
      ∧ (ovpn_iface_create s id name mode net struct_init_ret h).2.rtnl_held = false
      ∧ (ovpn_iface_create s id name mode net struct_init_ret h).2.dev_list = s.dev_list
      ∧ (ovpn_iface_create s id name mode net struct_init_ret h).2.registered = s.registered)
    ∧ (0 ≤ struct_init_ret → h.ret < 0 →
      (ovpn_iface_create s id name mode net struct_init_ret h).1 = h.ret
      ∧ (ovpn_iface_create s id name mode net struct_init_ret h).2.freed = s.freed ++ [id]
      ∧ (ovpn_iface_create s id name mode net struct_init_ret h).2.rtnl_held = false
      ∧ (ovpn_iface_create s id name mode net struct_init_ret h).2.dev_list = s.dev_list
      ∧ (ovpn_iface_create s id name mode net struct_init_ret h).2.registered = s.registered)
    ∧ (0 ≤ struct_init_ret → 0 ≤ h.ret →
      (ovpn_iface_create s id name mode net struct_init_ret h).1 = h.ret
      ∧ (ovpn_iface_create s id name mode net struct_init_ret h).2.freed = s.freed
      ∧ (ovpn_iface_create s id name mode net struct_init_ret h).2.rtnl_held = false
      ∧ (ovpn_iface_create s id name mode net struct_init_ret h).2.mode id = mode
      ∧ (ovpn_iface_create s id name mode net struct_init_ret h).2.dev_list = id :: s.dev_list
      ∧ (ovpn_iface_create s id name mode net struct_init_ret h).2.registered id = true)
    ∧ (struct_init_ret = 0 → h.ret = 0 →
      (ovpn_iface_create s id name mode net struct_init_ret h).1 = 0
      ∧ (ovpn_iface_create s id name mode net struct_init_ret h).2.mode id = mode) := by
  have hv : ovpn_dev_is_valid (ovpn_dev id) = true := rfl
  have hid : (ovpn_dev id).ifindex = id := rfl
  refine ⟨?_, ?_, ?_, ?_⟩
  · intro h1
    simp [ovpn_iface_create, h1, free_netdev, hlock]
  · intro h1 h2
    have h1' : ¬ struct_init_ret < 0 := not_lt.mpr h1
    cases ha : h.announced
    · simp [ovpn_iface_create, h1', h2, ha, register_netdevice, free_netdev, rtnl_unlock,
        rtnl_lock]
    · simp [ovpn_iface_create, h1', h2, ha, register_netdevice, free_netdev, rtnl_unlock,
        rtnl_lock, deliver, ovpn_netdev_notifier_call, hv, hid, list_add, destruct_dev_list,
        destruct_registered, destruct_frame, hfresh]
  · intro h1 h2
    have h1' : ¬ struct_init_ret < 0 := not_lt.mpr h1
    have h2' : ¬ h.ret < 0 := not_lt.mpr h2
    simp [ovpn_iface_create, h1', h2', register_netdevice, rtnl_unlock, rtnl_lock, deliver,
      ovpn_netdev_notifier_call, hv, hid, list_add]
  · intro h1 h2
    simp [ovpn_iface_create, h1, h2, register_netdevice, rtnl_unlock, rtnl_lock, deliver,
      ovpn_netdev_notifier_call, hv, hid, list_add]

/-- C6 on `one_registered` for a new device 1, with `register_netdevice`
failing with -17 after the device had been announced: the code is returned,
the device freed once, and interface 0 alone remains on `dev_list`. -/
theorem create_atomic_witness :
    one_registered.rtnl_held = false
    ∧ one_registered.registered 1 = false
    ∧ (ovpn_iface_create one_registered 1 "tun-test" OVPN_MODE_MP 0 0
        { ret := -17, announced := true }).1 = -17
    ∧ (ovpn_iface_create one_registered 1 "tun-test" OVPN_MODE_MP 0 0
        { ret := -17, announced := true }).2.freed = [1]
    ∧ (ovpn_iface_create one_registered 1 "tun-test" OVPN_MODE_MP 0 0
        { ret := -17, announced := true }).2.dev_list = [0] := by
  have h := (create_atomic one_registered 1 "tun-test" OVPN_MODE_MP 0 0
    { ret := -17, announced := true } (by decide) (by decide)).2.1 (by decide) (by decide)
  exact ⟨by decide, by decide, h.1, h.2.1, h.2.2.2.1⟩

/-! ### Resource release -/

/-- C7: for every interface, `ovpn_struct_free` makes exactly eight calls, in
this order: the peer cleanup of the mode (`ovpn_peer_release_p2p` for
`OVPN_MODE_P2P`, `ovpn_peers_free` for every other mode), release of the
security label, release of the per-CPU statistics, flush of the crypto queue,
flush of the events queue, destruction of the crypto queue, destruction of the
events queue, and last `rcu_barrier`; each queue is flushed before it is
destroyed and no call is made twice. -/
theorem struct_free_order (s : State) (net : Nat) :
    ovpn_struct_free s net =
      [ (if s.mode net = OVPN_MODE_P2P then free_call.ovpn_peer_release_p2p
          else free_call.ovpn_peers_free),
        free_call.security_tun_dev_free_security,
        free_call.free_percpu,
        free_call.flush_workqueue workqueue.crypto_wq,
        free_call.flush_workqueue workqueue.events_wq,
        free_call.destroy_workqueue workqueue.crypto_wq,
        free_call.destroy_workqueue workqueue.events_wq,
        free_call.rcu_barrier ]
    ∧ (ovpn_struct_free s net).length = 8
    ∧ (ovpn_struct_free s net).Nodup
    ∧ (∀ wq, free_call.flush_workqueue wq ∈ ovpn_struct_free s net
        ∧ free_call.destroy_workqueue wq ∈ ovpn_struct_free s net
        ∧ position (free_call.flush_workqueue wq) (ovpn_struct_free s net)
            < position (free_call.destroy_workqueue wq) (ovpn_struct_free s net))
    ∧ (∀ c, c ∈ ovpn_struct_free s net →
        position c (ovpn_struct_free s net) ≤ position free_call.rcu_barrier
          (ovpn_struct_free s net)) := by
  by_cases hm : s.mode net = OVPN_MODE_P2P
  · have key : ovpn_struct_free s net =
        [ free_call.ovpn_peer_release_p2p,
          free_call.security_tun_dev_free_security,
          free_call.free_percpu,
          free_call.flush_workqueue workqueue.crypto_wq,
          free_call.flush_workqueue workqueue.events_wq,
          free_call.destroy_workqueue workqueue.crypto_wq,
          free_call.destroy_workqueue workqueue.events_wq,
          free_call.rcu_barrier ] := by
      simp [ovpn_struct_free, hm]
    rw [key, if_pos hm]
    refine ⟨rfl, rfl, by decide, ?_, by decide⟩
    intro wq
    cases wq <;> decide
  · have key : ovpn_struct_free s net =
        [ free_call.ovpn_peers_free,
          free_call.security_tun_dev_free_security,
          free_call.free_percpu,
          free_call.flush_workqueue workqueue.crypto_wq,
          free_call.flush_workqueue workqueue.events_wq,
          free_call.destroy_workqueue workqueue.crypto_wq,
          free_call.destroy_workqueue workqueue.events_wq,
          free_call.rcu_barrier ] := by
      simp [ovpn_struct_free, hm]
    rw [key, if_neg hm]
    refine ⟨rfl, rfl, by decide, ?_, by decide⟩
    intro wq
    cases wq <;> decide

/-! ### Module load -/

/-- C8, as stated, fails: when `ovpn_tcp_init` succeeds and
`ovpn_nl_register` fails with -12, `ovpn_init` returns -12 having torn nothing
down, although the TCP subsystem had been started. -/
theorem init_leaves_tcp_started :
    ovpn_init 0 (-12) 0
      = (-12, [module_call.ovpn_tcp_init, module_call.ovpn_nl_register])
    ∧ started 0 (-12) 0 = [subsystem.tcp]
    ∧ torn_down (ovpn_init 0 (-12) 0).2 = []
    ∧ ¬ (∀ tcp_ret nl_ret nb_ret : Int, (tcp_ret ≠ 0 ∨ nl_ret ≠ 0 ∨ nb_ret ≠ 0) →
          torn_down (ovpn_init tcp_ret nl_ret nb_ret).2
            = (started tcp_ret nl_ret nb_ret).reverse) := by
  refine ⟨by decide, by decide, by decide, ?_⟩
  intro h
  have h0 := h 0 (-12) 0 (by decide)
  revert h0
  decide

/-- C8, amended: for every combination of results of the three start-up
steps, `ovpn_init` returns the code of the first step that fails (returns
non-zero), and 0 when none fails.  The control channel is unregistered
(`ovpn_nl_unregister`, once, as the last call) exactly when it had been
registered and the notifier registration then failed; the TCP subsystem has no
teardown and is never undone (`ovpn_cleanup` has none for it either); when all
three succeed nothing is torn down.  When a step failed, the subsystems torn
down are the started ones other than TCP, in reverse order of start-up. -/
theorem init_unwind (tcp_ret nl_ret nb_ret : Int) :
    (tcp_ret ≠ 0 →
      ovpn_init tcp_ret nl_ret nb_ret = (tcp_ret, [module_call.ovpn_tcp_init]))
    ∧ (tcp_ret = 0 → nl_ret ≠ 0 →
      ovpn_init tcp_ret nl_ret nb_ret
        = (nl_ret, [module_call.ovpn_tcp_init, module_call.ovpn_nl_register]))
    ∧ (tcp_ret = 0 → nl_ret = 0 → nb_ret ≠ 0 →
      ovpn_init tcp_ret nl_ret nb_ret
        = (nb_ret,
            [module_call.ovpn_tcp_init, module_call.ovpn_nl_register,
              module_call.register_netdevice_notifier, module_call.ovpn_nl_unregister]))
    ∧ (tcp_ret = 0 → nl_ret = 0 → nb_ret = 0 →
      ovpn_init tcp_ret nl_ret nb_ret
        = (0,
            [module_call.ovpn_tcp_init, module_call.ovpn_nl_register,
              module_call.register_netdevice_notifier]))
    ∧ torn_down (ovpn_init tcp_ret nl_ret nb_ret).2
        = (if tcp_ret = 0 ∧ nl_ret = 0 ∧ nb_ret = 0 then []
            else ((started tcp_ret nl_ret nb_ret).filter (fun x => x ≠ subsystem.tcp)).reverse)
    ∧ (torn_down (ovpn_init tcp_ret nl_ret nb_ret).2 = [subsystem.netlink]
        ↔ tcp_ret = 0 ∧ nl_ret = 0 ∧ nb_ret ≠ 0)
    ∧ subsystem.tcp ∉ torn_down (ovpn_init tcp_ret nl_ret nb_ret).2
    ∧ torn_down ovpn_cleanup = [subsystem.notifier, subsystem.netlink] := by
  have hc : List.filterMap torn_down_by ovpn_cleanup
      = [subsystem.notifier, subsystem.netlink] := by decide
  by_cases h1 : tcp_ret = 0 <;> by_cases h2 : nl_ret = 0 <;> by_cases h3 : nb_ret = 0 <;>
    simp [ovpn_init, started, torn_down, torn_down_by, h1, h2, h3, hc]

/-- The amended C8 where only the notifier registration fails, with -12: the
control channel is unregistered and -12 returned. -/
theorem init_unwind_witness :
    ovpn_init 0 0 (-12)
      = (-12,
          [module_call.ovpn_tcp_init, module_call.ovpn_nl_register,
            module_call.register_netdevice_notifier, module_call.ovpn_nl_unregister]) :=
  (init_unwind 0 0 (-12)).2.2.1 rfl rfl (by decide)

/-! ### MTU accounting -/

/-- C10: in `ovpn_setup` the overhead is 4 + `NONCE_WIRE_SIZE` + 16 + 8 + 40;
the device gets `mtu` = 1500 - overhead, `min_mtu` = 68 and `max_mtu` =
65535 - overhead.  For every `NONCE_WIRE_SIZE` from 0 to 1364 neither
subtraction wraps and `min_mtu ≤ mtu ≤ max_mtu`. -/
theorem setup_mtu_bounds (nonce_wire_size net_skb_pad : Nat) (hn : nonce_wire_size ≤ 1364) :
    overhead nonce_wire_size = 4 + (nonce_wire_size : Int) + 16 + 8 + 40
    ∧ ((ovpn_setup nonce_wire_size net_skb_pad).mtu : Int) = 1500 - overhead nonce_wire_size
    ∧ (ovpn_setup nonce_wire_size net_skb_pad).min_mtu = 68
    ∧ ((ovpn_setup nonce_wire_size net_skb_pad).max_mtu : Int)
        = 65535 - overhead nonce_wire_size
    ∧ (ovpn_setup nonce_wire_size net_skb_pad).min_mtu
        ≤ (ovpn_setup nonce_wire_size net_skb_pad).mtu
    ∧ (ovpn_setup nonce_wire_size net_skb_pad).mtu
        ≤ (ovpn_setup nonce_wire_size net_skb_pad).max_mtu := by
  have ho : overhead nonce_wire_size = 4 + (nonce_wire_size : Int) + 16 + 8 + 40 := by
    simp only [overhead, int_of_size, sizeof_u32, sizeof_udphdr, sizeof_ipv6hdr, sizeof_iphdr]
    have e1 : (4 + nonce_wire_size + 16 + 8 + max 40 20) % 2 ^ 64 % 2 ^ 32
        = nonce_wire_size + 68 := by
      have : max 40 20 = 40 := by decide
      omega
    rw [e1, if_pos (by omega)]
    push_cast
    ring
  have hm : (ovpn_setup nonce_wire_size net_skb_pad).mtu = 1432 - nonce_wire_size := by
    simp only [ovpn_setup, u32_of_int, ETH_DATA_LEN, ho]
    omega
  have hx : (ovpn_setup nonce_wire_size net_skb_pad).max_mtu = 65467 - nonce_wire_size := by
    simp only [ovpn_setup, u32_of_int, IP_MAX_MTU, ho]
    omega
  have hmin : (ovpn_setup nonce_wire_size net_skb_pad).min_mtu = 68 := rfl
  refine ⟨ho, ?_, hmin, ?_, ?_, ?_⟩
  · rw [hm, ho]; omega
  · rw [hx, ho]; omega
  · rw [hm, hmin]; omega
  · rw [hm, hx]; omega

/-- C10 at the largest admitted `NONCE_WIRE_SIZE`, 1364, where the default
`mtu` meets `min_mtu`: 68 ≤ 68 ≤ 64103. -/
theorem setup_mtu_bounds_witness :
    (1364 : Nat) ≤ 1364
    ∧ (ovpn_setup 1364 64).mtu = 68
    ∧ (ovpn_setup 1364 64).max_mtu = 64103
    ∧ (ovpn_setup 1364 64).min_mtu ≤ (ovpn_setup 1364 64).mtu
    ∧ (ovpn_setup 1364 64).mtu ≤ (ovpn_setup 1364 64).max_mtu :=
  have h := setup_mtu_bounds 1364 64 (le_refl 1364)
  ⟨le_refl 1364, by decide, by decide, h.2.2.2.2.1, h.2.2.2.2.2⟩

end Ovpn
